import Mathlib

/-!
Verification development for the MAG repository: a shallow embedding of the
policy engine, todo store, coordinator control flow, bash tool safety net,
Gemini response cleanup and wire-format message handling, together with
theorems settling the specification claims about them.

C++ `std::string` values are modelled as `List Char`; machine `int` as `Int`;
`std::chrono` time points as `Nat` ticks supplied by the caller (the wall
clock is an external input).  Fallible operations return `Option`.
-/

namespace MAG

/-- C++ `std::string` modelled as a list of characters. -/
abbrev Str := List Char

/-- Turn a Lean string literal into the model type. -/
def str (s : String) : Str := s.data

/-- `std::string::find(pat)` helper: first index at or after `i` (counting
from the original start) where `pat` occurs in the remaining suffix. -/
def findSubAux (pat : Str) : Str → Nat → Option Nat
  | [], i => if pat.isPrefixOf ([] : Str) then some i else none
  | c :: t, i =>
    if pat.isPrefixOf (c :: t) then some i else findSubAux pat t (i + 1)

/-- `s.find(pat)`: index of the first occurrence of `pat` in `s`, if any. -/
def findSub (s pat : Str) : Option Nat := findSubAux pat s 0

/-- `s.find(pat, from)`: first occurrence of `pat` at or after index `from`. -/
def findFrom (s pat : Str) (i : Nat) : Option Nat := findSubAux pat (s.drop i) i

/-- `s.find(pat) != std::string::npos`: substring occurrence test. -/
def containsSub (s pat : Str) : Bool := (findSub s pat).isSome

/-- Last index of character `c` in `s` (accumulator form). -/
def lastIdxOfAux (c : Char) : Str → Nat → Option Nat → Option Nat
  | [], _, best => best
  | x :: xs, i, best => lastIdxOfAux c xs (i + 1) (if x = c then some i else best)

/-- `std::string::rfind(c)` restricted to indices `≤ bound`. -/
def rfindBeforeAux (c : Char) (bound : Nat) : Str → Nat → Option Nat → Option Nat
  | [], _, best => best
  | x :: xs, i, best =>
    rfindBeforeAux c bound xs (i + 1) (if x = c ∧ i ≤ bound then some i else best)

/-- `s.rfind(c, bound)`: last index of `c` at or before `bound`. -/
def rfindBefore (s : Str) (c : Char) (bound : Nat) : Option Nat :=
  rfindBeforeAux c bound s 0 none

/-- `s.erase(start, stop - start)` expressed with an absolute stop index. -/
def eraseRange (s : Str) (start stop : Nat) : Str :=
  s.take start ++ s.drop stop

/-- Split a path string on the `/` separator (auxiliary, current segment
accumulated in reverse). -/
def splitSlashAux : Str → Str → List Str
  | cur, [] => [cur.reverse]
  | cur, c :: rest =>
    if c = '/' then cur.reverse :: splitSlashAux [] rest
    else splitSlashAux (c :: cur) rest

/-- Split a path string on `/`. -/
def splitSlash (p : Str) : List Str := splitSlashAux [] p

/-- Join path segments with `/`. -/
def joinSlash (segs : List Str) : Str := List.intercalate (str "/") segs

/-- `std::filesystem::path::lexically_normal` segment resolution: drops `.`
and empty segments and cancels `name/..` pairs; a `..` directly under the
root of an absolute path is removed. -/
def normSegsAux (isAbs : Bool) : List Str → List Str → List Str
  | acc, [] => acc.reverse
  | acc, s :: rest =>
    if s = str "." ∨ s = ([] : Str) then normSegsAux isAbs acc rest
    else if s = str ".." then
      match acc with
      | [] =>
        if isAbs then normSegsAux isAbs [] rest
        else normSegsAux isAbs [str ".."] rest
      | t :: acc2 =>
        if t = str ".." then normSegsAux isAbs (s :: acc) rest
        else normSegsAux isAbs acc2 rest
    else normSegsAux isAbs (s :: acc) rest

/-- `std::filesystem::path(p).lexically_normal()` for paths without a
trailing separator. -/
def lexNormal (p : Str) : Str :=
  let isAbs := p.head? = some '/'
  let segs := normSegsAux isAbs [] (splitSlash p)
  if segs.isEmpty then (if isAbs then str "/" else str ".")
  else (if isAbs then str "/" else []) ++ joinSlash segs

/-- `std::filesystem::absolute(p)`: `p` itself when absolute, otherwise the
process working directory joined with `p`. -/
def absJoin (cwd p : Str) : Str :=
  if p.head? = some '/' then p else cwd ++ ('/' :: p)

namespace Utils

/-- `Utils::get_real_path` (src/unnamed/part_002, lines 8-19): try
`std::filesystem::canonical` (an operating-system lookup, modelled by the
`canon` oracle, which fails e.g. for non-existent paths); on failure fall
back to `absolute(p).lexically_normal()`. -/
def get_real_path (canon : Str → Option Str) (cwd p : Str) : Str :=
  match canon p with
  | some c => c
  | none => lexNormal (absJoin cwd p)

end Utils

/-- CRUD operation kinds (include/policy.h). -/
inductive Operation where
  | CREATE
  | READ
  | UPDATE
  | DELETE
deriving DecidableEq

/-- Per-operation policy (include/policy.h `OperationPolicy`). -/
structure OperationPolicy where
  allowed_directories : List Str
  confirmation_required : Bool
  allowed_commands : List Str
  blocked_commands : List Str
deriving DecidableEq

/-- `OperationPolicy(dirs, confirm)` constructor used by the defaults. -/
def opPolicy (dirs : List Str) (confirm : Bool) : OperationPolicy :=
  { allowed_directories := dirs, confirmation_required := confirm,
    allowed_commands := [], blocked_commands := [] }

/-- Per-tool policy (include/policy.h `ToolPolicy`). -/
structure ToolPolicy where
  create : OperationPolicy
  read : OperationPolicy
  update : OperationPolicy
  delete_op : OperationPolicy
deriving DecidableEq

/-- Global policy section with its header defaults (include/policy.h
`GlobalPolicy`). -/
structure GlobalPolicy where
  blocked_extensions : List Str
  max_file_size_mb : Nat
  auto_backup : Bool
deriving DecidableEq

/-- The `GlobalPolicy()` default constructor values. -/
def defaultGlobalPolicy : GlobalPolicy :=
  { blocked_extensions :=
      [str ".key", str ".pem", str ".env", str ".secret", str ".crt"],
    max_file_size_mb := 10, auto_backup := false }

/-- Whole policy document; the `std::map` of tools is modelled as an
association list looked up by key. -/
structure PolicySettings where
  global : GlobalPolicy
  tools : List (Str × ToolPolicy)
deriving DecidableEq

namespace PolicySettings

/-- The `PolicySettings()` default constructor (src/unnamed/part_003,
lines 291-321): hard-coded defaults for file_tool, todo_tool and bash_tool. -/
def defaults : PolicySettings :=
  let file_tool_policy : ToolPolicy :=
    { create := opPolicy [str "src/", str "tests/", str "docs/"] true,
      read := opPolicy [str "src/", str "tests/", str "docs/"] false,
      update := opPolicy [str "src/", str "tests/"] true,
      delete_op := opPolicy [] true }
  let todo_tool_policy : ToolPolicy :=
    { create := opPolicy [] false, read := opPolicy [] false,
      update := opPolicy [] false, delete_op := opPolicy [] true }
  let bash_create : OperationPolicy :=
    { allowed_directories := [], confirmation_required := true,
      allowed_commands :=
        [str "make", str "cmake", str "gcc", str "g++", str "npm",
         str "cargo", str "python", str "python3", str "pip", str "ls",
         str "pwd", str "find", str "grep", str "cat", str "head",
         str "tail", str "wc", str "sort", str "uniq", str "awk",
         str "sed", str "git"],
      blocked_commands :=
        [str "rm", str "rmdir", str "dd", str "mkfs", str "format",
         str "fdisk", str "mount", str "umount", str "chmod 777",
         str "chown", str "su", str "sudo", str "passwd",
         str "systemctl", str "shutdown", str "reboot", str "kill -9",
         str "curl", str "wget", str "nc"] }
  let bash_tool_policy : ToolPolicy :=
    { create := bash_create, read := opPolicy [] false,
      update := opPolicy [] true, delete_op := opPolicy [] true }
  { global := defaultGlobalPolicy,
    tools := [(str "file_tool", file_tool_policy),
              (str "todo_tool", todo_tool_policy),
              (str "bash_tool", bash_tool_policy)] }

/-- `PolicySettings::get_operation_policy` (src/unnamed/part_003,
lines 376-390). -/
def get_operation_policy (S : PolicySettings) (tool : Str) (op : Operation) :
    Option OperationPolicy :=
  match S.tools.lookup tool with
  | none => none
  | some tp =>
    some (match op with
          | .CREATE => tp.create
          | .READ => tp.read
          | .UPDATE => tp.update
          | .DELETE => tp.delete_op)

/-- `PolicySettings::is_operation_allowed` (src/unnamed/part_003,
lines 392-414): unknown tool denies; an empty allowed-directories list
denies; an empty string entry allows any path; otherwise the raw path
must start with one of the entries (`path.find(dir) == 0`). -/
def is_operation_allowed (S : PolicySettings) (tool : Str) (op : Operation)
    (path : Str) : Bool :=
  match get_operation_policy S tool op with
  | none => false
  | some pol =>
    if pol.allowed_directories.isEmpty then false
    else pol.allowed_directories.any (fun d => d.isEmpty || d.isPrefixOf path)

end PolicySettings

/-- `std::filesystem::path::filename()`: the component after the last `/`. -/
def pathFilename (p : Str) : Str := ((splitSlash p).getLast?).getD []

/-- `std::filesystem::path::extension()`: from the last dot of the filename
to its end; empty for dotless names, for `.` / `..`, and for names whose
only dot is the leading character. -/
def pathExtension (p : Str) : Str :=
  let f := pathFilename p
  if f = str "." ∨ f = str ".." then []
  else
    match lastIdxOfAux '.' f 0 none with
    | none => []
    | some 0 => []
    | some i => f.drop i

namespace PolicyChecker

/-- `PolicyChecker::is_extension_blocked` (src/src/common/policy.cpp,
lines 39-50). -/
def is_extension_blocked (S : PolicySettings) (path : Str) : Bool :=
  let ext := pathExtension path
  if ext.isEmpty then false
  else S.global.blocked_extensions.contains ext

/-- `PolicyChecker::is_within_cwd` (src/src/common/policy.cpp, lines 73-79):
the real path of `path` must start with the real path of the process
working directory (`real_path.find(safe_cwd) == 0`). -/
def is_within_cwd (canon : Str → Option Str) (cwd path : Str) : Bool :=
  let real_path := Utils.get_real_path canon cwd path
  let safe_cwd := Utils.get_real_path canon cwd cwd
  safe_cwd.isPrefixOf real_path

/-- `PolicyChecker::is_allowed(tool, operation, path)`
(src/src/common/policy.cpp, lines 19-32). -/
def is_allowed (canon : Str → Option Str) (cwd : Str) (S : PolicySettings)
    (tool : Str) (op : Operation) (path : Str) : Bool :=
  if is_within_cwd canon cwd path = false then false
  else if is_extension_blocked S path = true then false
  else S.is_operation_allowed tool op path

/-- The single-argument legacy `PolicyChecker::is_allowed(path)`
(src/src/common/policy.cpp, lines 34-37): defaults to the file_tool READ
operation. -/
def is_allowed_legacy (canon : Str → Option Str) (cwd : Str)
    (S : PolicySettings) (path : Str) : Bool :=
  is_allowed canon cwd S (str "file_tool") Operation.READ path

/-- `PolicyChecker::is_bash_command_blocked` (src/src/common/policy.cpp,
lines 162-178): no bash_tool section means blocked; otherwise blocked iff
some blocked-commands entry occurs as a substring of the command. -/
def is_bash_command_blocked (S : PolicySettings) (command : Str) : Bool :=
  match S.tools.lookup (str "bash_tool") with
  | none => true
  | some bt =>
    bt.create.blocked_commands.any (fun b => containsSub command b)

/-- The base command of `PolicyChecker::is_bash_command_allowed`
(src/src/common/policy.cpp, lines 149-154): the prefix of the command up
to the first space character (`command.find(' ')`), or the whole command
when there is no space. -/
def base_command (command : Str) : Str :=
  match findSub command (str " ") with
  | none => command
  | some i => command.take i

/-- `PolicyChecker::is_bash_command_allowed` (src/src/common/policy.cpp,
lines 130-160). -/
def is_bash_command_allowed (S : PolicySettings) (command : Str) : Bool :=
  if is_bash_command_blocked S command = true then false
  else
    match S.tools.lookup (str "bash_tool") with
    | none => false
    | some bt =>
      if bt.create.allowed_commands.isEmpty then true
      else bt.create.allowed_commands.contains (base_command command)

end PolicyChecker

/-- Todo lifecycle states (include/todo_manager.h). -/
inductive TodoStatus where
  | PENDING
  | IN_PROGRESS
  | COMPLETED
deriving DecidableEq

/-- A work item (include/todo_manager.h `TodoItem`); time points are ticks. -/
structure TodoItem where
  id : Int
  title : Str
  description : Str
  status : TodoStatus
  created_at : Nat
  updated_at : Nat
deriving DecidableEq

/-- The todo store (include/todo_manager.h `TodoManager`). -/
structure TodoManager where
  next_id : Int
  todos : List TodoItem
deriving DecidableEq

namespace TodoManager

/-- The title branch of `TodoManager::update_todo` (src/unnamed/part_003,
lines 76-79): overwrite when a non-empty, different title is supplied. -/
def upd_title (title : Option Str) (p : TodoItem × Bool) : TodoItem × Bool :=
  match title with
  | none => p
  | some t =>
    if t.isEmpty = false ∧ p.1.title ≠ t then ({ p.1 with title := t }, true)
    else p

/-- The description branch of `TodoManager::update_todo` (src/unnamed/
part_003, lines 81-84). -/
def upd_description (description : Option Str) (p : TodoItem × Bool) :
    TodoItem × Bool :=
  match description with
  | none => p
  | some d =>
    if p.1.description ≠ d then ({ p.1 with description := d }, true)
    else p

/-- The status branch of `TodoManager::update_todo` (src/unnamed/part_003,
lines 86-89). -/
def upd_status (status : Option TodoStatus) (p : TodoItem × Bool) :
    TodoItem × Bool :=
  match status with
  | none => p
  | some s =>
    if p.1.status ≠ s then ({ p.1 with status := s }, true)
    else p

/-- The in-place mutation `TodoManager::update_todo` performs on the found
item (src/unnamed/part_003, lines 75-95), including the `updated_at`
timestamp refresh when anything changed. -/
def apply_update (title description : Option Str) (status : Option TodoStatus)
    (now : Nat) (it : TodoItem) : TodoItem × Bool :=
  match upd_status status (upd_description description (upd_title title (it, false))) with
  | (it2, true) => ({ it2 with updated_at := now }, true)
  | (it2, false) => (it2, false)

/-- Update the first list element whose id matches (the `find_todo` iterator
followed by in-place mutation); returns the new list and the update flag. -/
def update_first (id : Int) (f : TodoItem → TodoItem × Bool) :
    List TodoItem → List TodoItem × Bool
  | [] => ([], false)
  | x :: xs =>
    if x.id = id then ((f x).1 :: xs, (f x).2)
    else
      let r := update_first id f xs
      (x :: r.1, r.2)

/-- `TodoManager::update_todo` (src/unnamed/part_003, lines 67-96). -/
def update_todo (m : TodoManager) (id : Int) (title description : Option Str)
    (status : Option TodoStatus) (now : Nat) : TodoManager × Bool :=
  let r := update_first id (apply_update title description status now) m.todos
  ({ m with todos := r.1 }, r.2)

/-- `TodoManager::mark_in_progress` (src/unnamed/part_003, lines 150-153). -/
def mark_in_progress (m : TodoManager) (id : Int) (now : Nat) : TodoManager :=
  (update_todo m id none none (some TodoStatus.IN_PROGRESS) now).1

/-- `TodoManager::mark_completed` (src/unnamed/part_003, lines 155-158). -/
def mark_completed (m : TodoManager) (id : Int) (now : Nat) : TodoManager :=
  (update_todo m id none none (some TodoStatus.COMPLETED) now).1

/-- `TodoManager::get_pending_todos` (src/unnamed/part_003, lines 117-124). -/
def get_pending_todos (m : TodoManager) : List TodoItem :=
  m.todos.filter (fun t => t.status == TodoStatus.PENDING)

/-- Ordered insertion by `created_at`, modelling the
`std::sort` comparator `a.created_at < b.created_at`. -/
def insert_by_created (x : TodoItem) : List TodoItem → List TodoItem
  | [] => [x]
  | y :: ys =>
    if x.created_at < y.created_at then x :: y :: ys
    else y :: insert_by_created x ys

/-- `TodoManager::get_execution_queue` (src/unnamed/part_003, lines 177-185):
the pending todos sorted by creation time (FIFO). -/
def get_execution_queue (m : TodoManager) : List TodoItem :=
  (get_pending_todos m).foldr insert_by_created []

/-- The scanning loop of `TodoManager::get_todos_range` (src/unnamed/
part_003, lines 205-218): `found` is the `found_start` flag; an item equal
to `start_id` switches it on; once on, items are collected and collection
stops right after the first item equal to `end_id`. -/
def range_go (start_id end_id : Int) : Bool → List TodoItem → List TodoItem
  | _, [] => []
  | found, t :: rest =>
    let found2 := found || t.id == start_id
    if found2 then
      t :: (if t.id == end_id then [] else range_go start_id end_id true rest)
    else range_go start_id end_id false rest

/-- `TodoManager::get_todos_range` (src/unnamed/part_003, lines 201-221). -/
def get_todos_range (m : TodoManager) (start_id end_id : Int) :
    List TodoItem :=
  range_go start_id end_id false (get_execution_queue m)

/-- Status of the item with the given id, read off the store (the view the
`/todo` listing exposes). -/
def status_of (m : TodoManager) (i : Int) : Option TodoStatus :=
  (m.todos.find? (fun t => t.id == i)).map (fun t => t.status)

end TodoManager

namespace Coordinator

/-- The per-item body of the `Coordinator::execute_todos` loop
(src/src/orchestrator/coordinator.cpp, lines 833-849) iterated over the
pending snapshot: mark in-progress, run the executor (`exec` reports
whether `execute_single_todo` succeeded or threw), mark completed on
success; the catch handler logs and CONTINUES with the next item. -/
def exec_loop (exec : TodoItem → Bool) (now : Nat) :
    List TodoItem → TodoManager → TodoManager
  | [], m => m
  | t :: rest, m =>
    let m1 := TodoManager.mark_in_progress m t.id now
    let m2 := if exec t then TodoManager.mark_completed m1 t.id now else m1
    exec_loop exec now rest m2

/-- `Coordinator::execute_todos` (src/src/orchestrator/coordinator.cpp,
lines 799-860) with the stop/pause flags at their initial cleared values
(they are reset at entry and only set by asynchronous control commands,
which are absent here): iterate the snapshot of pending todos. -/
def execute_todos (exec : TodoItem → Bool) (now : Nat) (m : TodoManager) :
    TodoManager :=
  exec_loop exec now (TodoManager.get_pending_todos m) m

/-- `Coordinator::get_user_confirmation` (src/src/orchestrator/
coordinator.cpp, lines 359-375), returning (confirmed, always-approve flag
after the prompt) given the flag before the prompt and the input line. -/
def get_user_confirmation (always_approve : Bool) (input : Str) :
    Bool × Bool :=
  match input with
  | [] => (false, always_approve)
  | choice :: _ =>
    if choice = 'a' ∨ choice = 'A' then (true, true)
    else ((choice = 'y' ∨ choice = 'Y' : Bool), always_approve)

/-- The pre-apply policy check the Coordinator runs on a write-file plan
(src/src/orchestrator/coordinator.cpp, line 115 in `run` and line 981 in
`execute_todo_as_file_operation`): the one-argument legacy
`PolicyChecker::is_allowed(path)`. -/
def plan_policy_check (canon : Str → Option Str) (cwd : Str)
    (S : PolicySettings) (path : Str) : Bool :=
  PolicyChecker.is_allowed_legacy canon cwd S path

end Coordinator

/-- Outcome of `PolicyConfig::load_or_create`: a loaded settings value, or
process termination via `std::exit(code)`. -/
inductive LoadOutcome where
  | ok (s : PolicySettings)
  | exits (code : Nat)
deriving DecidableEq

/-- The filesystem facts `PolicyConfig::load_or_create` consults:
whether `.mag/policy.json` exists, whether the `.mag` directory can be
created, whether the default document can be written, and what
`parse_config` returns on the (possibly freshly created) file — `none`
models a JSON parse failure, a schema failure or a validation failure. -/
structure PolicyFs where
  policy_file_exists : Bool
  mkdir_ok : Bool
  write_default_ok : Bool
  parse_result : Option PolicySettings
deriving DecidableEq

namespace PolicyConfig

/-- `PolicyConfig::load_or_create` (src/unnamed/part_003, lines 416-446):
when the file is missing, failure to create the directory or the default
document exits with status 2; a file that fails to parse or validate
exits with status 1. -/
def load_or_create (fs : PolicyFs) : LoadOutcome :=
  if fs.policy_file_exists = false ∧ fs.mkdir_ok = false then .exits 2
  else if fs.policy_file_exists = false ∧ fs.write_default_ok = false then
    .exits 2
  else
    match fs.parse_result with
    | none => .exits 1
    | some s => .ok s

end PolicyConfig

/-- Result record of a bash execution (include/bash_tool.h `CommandResult`);
the wall-clock timing fields are omitted (real time is outside the model).
Default-constructed strings are empty. -/
structure CommandResult where
  command : Str
  exit_code : Int
  stdout_output : Str
  stderr_output : Str
  working_directory : Str
  pwd_after_execution : Str
  success : Bool
  error_message : Str
deriving DecidableEq

/-- What `popen` hands back for one shell invocation: the combined output
text and the process exit status (after `WEXITSTATUS`). -/
structure ShellOut where
  output : Str
  exit_status : Int

namespace BashTool

/-- `BashTool::get_blocked_commands` (src/unnamed/part_004, lines 150-171). -/
def get_blocked_commands : List Str :=
  [str "rm -rf /", str "sudo rm", str "format", str "fdisk", str "mkfs",
   str "dd if=/dev/zero", str ":()\x7b :|:& \x7d;:", str "chmod 000",
   str "chown root", str "passwd", str "su -", str "sudo su", str "reboot",
   str "shutdown", str "halt", str "poweroff", str "init 0", str "init 6"]

/-- `BashTool::is_command_allowed` (src/unnamed/part_004, lines 129-148):
lowercase the command; refuse when a built-in blocked command occurs at
the start or after a space, or when the dangerous-pattern scan matches.
The `std::regex` engine running the dangerous patterns of lines 173-183
is external; it is modelled by the `dangerous` oracle. -/
def is_command_allowed (dangerous : Str → Bool) (command : Str) : Bool :=
  let cmd_lower := command.map Char.toLower
  if get_blocked_commands.any
      (fun b => b.isPrefixOf cmd_lower || containsSub cmd_lower (' ' :: b))
  then false
  else if dangerous command then false
  else true

/-- The `__PWD_MARKER__` sentinel of src/unnamed/part_004, line 241. -/
def pwd_marker : Str := str "__PWD_MARKER__"

/-- `BashTool::execute_unix_command` (src/unnamed/part_004, lines 204-262)
with context capture on: build the `cd … && cmd ; echo marker$(pwd) 2>&1`
line, run it through the shell, recover the exit status and extract and
strip the sentinel line from the combined output. -/
def execute_unix_command (shell : Str → ShellOut) (command work_dir : Str) :
    CommandResult :=
  let full_command :=
    str "cd \"" ++ work_dir ++ str "\" && " ++ command
      ++ str " ; echo \"__PWD_MARKER__$(pwd)\""
  let so := shell (full_command ++ str " 2>&1")
  let output := so.output
  let extracted :=
    match findSub output pwd_marker with
    | none => (([] : Str), output)
    | some p =>
      let s0 := p + pwd_marker.length
      let e0 := match findFrom output (str "\n") s0 with
                | none => output.length
                | some e => e
      let pwd := (output.drop s0).take (e0 - s0)
      let line_start := match rfindBefore output '\n' p with
                        | none => 0
                        | some ls => ls + 1
      let out2 := eraseRange output line_start
                    (e0 + (if e0 < output.length then 1 else 0))
      (pwd, out2)
  { command := command, exit_code := so.exit_status,
    stdout_output := extracted.2, stderr_output := [],
    working_directory := work_dir, pwd_after_execution := extracted.1,
    success := so.exit_status == 0, error_message := [] }

/-- `BashTool::execute_command` (src/unnamed/part_004, lines 63-109) with
the default context capture: the security pre-check either refuses with a
fully determined blocked result — no shell invocation — or the command is
run through `execute_unix_command`, followed by the
`capture_execution_context` fallback of lines 341-350. -/
def execute_command (dangerous : Str → Bool) (shell : Str → ShellOut)
    (proc_cwd : Str) (command working_directory : Str) : CommandResult :=
  if is_command_allowed dangerous command = false then
    { command := command, exit_code := -1, stdout_output := [],
      stderr_output := [], working_directory := [],
      pwd_after_execution := [], success := false,
      error_message := str "Command blocked by security policy: " ++ command }
  else
    let work_dir :=
      if working_directory.isEmpty then proc_cwd else working_directory
    let r := execute_unix_command shell command work_dir
    if r.pwd_after_execution.isEmpty then
      { r with pwd_after_execution := r.working_directory }
    else r

end BashTool

namespace GeminiProvider

/-- The code-fence cleanup inside `GeminiProvider::parse_response`
(src/src/providers/openai_provider.cpp, lines 222-239), applied to the
text extracted from the vendor envelope before it is given to the JSON
parser: look for a literal three-backtick-json marker; when found, skip
it and any following newline, carriage-return or space characters, then
cut at the next three-backtick marker; in every other case the text is
returned unchanged. -/
def strip_code_fence (content : Str) : Str :=
  match findSub content (str "```json") with
  | none => content
  | some p =>
    let start0 := p + 7
    let start := start0 +
      ((content.drop start0).takeWhile
        (fun c => c = '\n' ∨ c = '\r' ∨ c = ' ')).length
    match findFrom content (str "```") start with
    | none => content
    | some e => (content.drop start).take (e - start)

/-- Necessary condition for `nlohmann::json::parse` to accept a text: after
leading JSON whitespace the first character must open a JSON value
(an object, array, string, number or literal). -/
def json_lead_ok (s : Str) : Bool :=
  match s.dropWhile (fun c => c = ' ' ∨ c = '\t' ∨ c = '\n' ∨ c = '\r') with
  | [] => false
  | c :: _ =>
    c = '\x7b' ∨ c = '[' ∨ c = '"' ∨ c = '-' ∨ c.isDigit
      ∨ c = 't' ∨ c = 'f' ∨ c = 'n'

end GeminiProvider

/-- JSON documents as `nlohmann::json` values; objects are field lists
looked up by key. -/
inductive Json where
  | null
  | bool (b : Bool)
  | num (n : Int)
  | str (s : Str)
  | arr (xs : List Json)
  | obj (fields : List (Str × Json))

/-- `nlohmann::json::at(key)` on an object: first binding of the key;
fails on other value kinds. -/
def Json.at_key : Json → Str → Option Json
  | .obj fields, k => fields.lookup k
  | _, _ => none

/-- `contains(key)` on a JSON value. -/
def Json.contains_key (j : Json) (k : Str) : Bool := (j.at_key k).isSome

/-- `get_to` into a `std::string`: fails unless the value is a string. -/
def Json.get_str : Json → Option Str
  | .str s => some s
  | _ => none

/-- `get_to` into a `bool`: fails unless the value is a boolean. -/
def Json.get_bool : Json → Option Bool
  | .bool b => some b
  | _ => none

/-- The write-file plan (include/message.h `WriteFileCommand`); the
`request_execution` field has C++ default `false`. -/
structure WriteFileCommand where
  command : Str
  path : Str
  content : Str
  request_execution : Bool
deriving DecidableEq

namespace WriteFileCommand

/-- `WriteFileCommand::to_json` (src/unnamed/part_001, lines 123-130). -/
def to_json (c : WriteFileCommand) : Json :=
  .obj [(str "command", .str c.command),
        (str "path", .str c.path),
        (str "content", .str c.content),
        (str "request_execution", .bool c.request_execution)]

/-- `WriteFileCommand::from_json` (src/unnamed/part_001, lines 132-139):
the three string fields are demanded via `at`; `request_execution` is
read only when present and otherwise keeps its default `false`. -/
def from_json (j : Json) : Option WriteFileCommand := do
  let c ← (j.at_key (str "command")).bind Json.get_str
  let p ← (j.at_key (str "path")).bind Json.get_str
  let t ← (j.at_key (str "content")).bind Json.get_str
  let re ←
    if j.contains_key (str "request_execution") then
      (j.at_key (str "request_execution")).bind Json.get_bool
    else pure false
  pure { command := c, path := p, content := t, request_execution := re }

end WriteFileCommand

namespace MessageHandler

/-- `MessageHandler::serialize_command` (src/unnamed/part_001,
lines 229-233); the `nlohmann` text dump and re-parse are the external
JSON library's faithful round trip, so the wire document is modelled at
the JSON-value level. -/
def serialize_command (c : WriteFileCommand) : Json := c.to_json

/-- `MessageHandler::deserialize_command` (src/unnamed/part_001,
lines 235-240). -/
def deserialize_command (j : Json) : Option WriteFileCommand :=
  WriteFileCommand.from_json j

end MessageHandler

/-! ### Specification-side definitions

The following definitions transcribe claim sentences (not the source);
each is compared against the source embedding in a refinement theorem or
refuted by a counterexample. -/

/-- Spec wording for C4: the first whitespace-delimited token of a command
string (leading whitespace skipped, token ends at any whitespace). -/
def spec_first_ws_token (c : Str) : Str :=
  (c.dropWhile Char.isWhitespace).takeWhile (fun ch => ch.isWhitespace = false)

/-- Spec wording for C4: blocked when any blocked-commands entry occurs as
a substring; otherwise allowed iff allowed-commands is empty or contains
the first whitespace-delimited token. -/
def spec_command_allowed (S : PolicySettings) (c : Str) : Bool :=
  match S.tools.lookup (str "bash_tool") with
  | none => false
  | some bt =>
    if bt.create.blocked_commands.any (fun b => containsSub c b) then false
    else if bt.create.allowed_commands.isEmpty then true
    else bt.create.allowed_commands.contains (spec_first_ws_token c)

/-- Amended wording for C4: the base command is the prefix of the command
up to the first space character (the whole command when it has none). -/
def amended_command_allowed (S : PolicySettings) (c : Str) : Bool :=
  match S.tools.lookup (str "bash_tool") with
  | none => false
  | some bt =>
    if bt.create.blocked_commands.any (fun b => containsSub c b) then false
    else if bt.create.allowed_commands.isEmpty then true
    else bt.create.allowed_commands.contains (PolicyChecker.base_command c)

/-- Amended wording for C5: the queue suffix beginning at the first
occurrence of the given id (empty when the id never occurs). -/
def drop_before_first (start_id : Int) (l : List TodoItem) : List TodoItem :=
  l.dropWhile (fun t => t.id != start_id)

/-- Amended wording for C5: collect items up to and including the first
occurrence of the given id; the whole list when the id never occurs. -/
def take_through_first (end_id : Int) : List TodoItem → List TodoItem
  | [] => []
  | x :: xs =>
    if x.id = end_id then [x] else x :: take_through_first end_id xs

/-- Amended wording for C7: the decision is taken on the first character of
the input line; `a`/`A` sets always-approve and confirms, `y`/`Y` confirms
once, any other first character — or an empty line — cancels. -/
def spec_confirmation (always_approve : Bool) (input : Str) : Bool × Bool :=
  match input with
  | [] => (false, always_approve)
  | c :: _ =>
    if c = 'a' ∨ c = 'A' then (true, true)
    else if c = 'y' ∨ c = 'Y' then (true, always_approve)
    else (false, always_approve)

/-- Claim wording for C9: a write-file path is approved iff it passes the
cwd check, the extension check, and the allowed-directories list of the
file_tool READ sub-policy. -/
def spec_read_approval (canon : Str → Option Str) (cwd : Str)
    (S : PolicySettings) (p : Str) : Bool :=
  PolicyChecker.is_within_cwd canon cwd p
    && !(PolicyChecker.is_extension_blocked S p)
    && (match S.tools.lookup (str "file_tool") with
        | none => false
        | some tp =>
          !tp.read.allowed_directories.isEmpty
            && tp.read.allowed_directories.any
                 (fun d => d.isEmpty || d.isPrefixOf p))

/-! ### Concrete fixtures used by counterexamples and witnesses -/

/-- A canonicalisation oracle on which `std::filesystem::canonical` always
fails (the checked paths do not exist yet), so `get_real_path` takes its
lexical-normalisation fallback; for the existing working directory below
the fallback coincides with the canonical spelling. -/
def canonNone : Str → Option Str := fun _ => none

/-- A concrete process working directory. -/
def cwd0 : Str := str "/home/user/project"

/-- A relative path that contains `..` yet resolves back inside `src/`. -/
def dotdot_inside : Str := str "src/../src/a.txt"

/-- A relative path whose `..` climbs out of the working directory. -/
def dotdot_escape : Str := str "../etc/passwd"

/-- Policy for C4: a bash_tool section allowing only `ls` and blocking
nothing. -/
def bashOnlyLs : PolicySettings :=
  { global := defaultGlobalPolicy,
    tools := [(str "bash_tool",
      { create := { allowed_directories := [], confirmation_required := true,
                    allowed_commands := [str "ls"], blocked_commands := [] },
        read := opPolicy [] false, update := opPolicy [] true,
        delete_op := opPolicy [] true })] }

/-- A command whose first whitespace-delimited token is `ls` but which
contains no space character (the separator is a tab). -/
def tabLs : Str := str "ls\t-la"

/-- Policy for C9: file_tool may read under `src/` but create nowhere. -/
def readNotCreate : PolicySettings :=
  { global := defaultGlobalPolicy,
    tools := [(str "file_tool",
      { create := opPolicy [] true,
        read := opPolicy [str "src/"] false,
        update := opPolicy [] true,
        delete_op := opPolicy [] true })] }

/-- A pending todo item fixture. -/
def mkPending (i : Int) (ts : Nat) : TodoItem :=
  { id := i, title := str "t", description := [], status := .PENDING,
    created_at := ts, updated_at := ts }

/-- Store for C5: three pending items, ids 1, 2, 3, in creation order. -/
def store123 : TodoManager :=
  { next_id := 4, todos := [mkPending 1 1, mkPending 2 2, mkPending 3 3] }

/-- Store for C1: two pending items. -/
def store12 : TodoManager :=
  { next_id := 3, todos := [mkPending 1 1, mkPending 2 2] }

/-- Executor outcome for C1: item 1 fails, item 2 succeeds. -/
def execFail1 : TodoItem → Bool := fun t => t.id == 2

/-- Filesystem facts for C3: the policy file exists but is malformed. -/
def fsMalformed : PolicyFs :=
  { policy_file_exists := true, mkdir_ok := true, write_default_ok := true,
    parse_result := none }

/-- A valid plan text as the model would emit it, fenced with a json tag. -/
def taggedFenced : Str :=
  str "```json\n\x7b\"command\": \"WriteFile\", \"path\": \"a.txt\"\x7d\n```"

/-- The same plan text inside a bare fence (no language tag). -/
def bareFenced : Str :=
  str "```\n\x7b\"command\": \"WriteFile\", \"path\": \"a.txt\"\x7d\n```"

/-- The inner JSON document of the fenced examples (with the trailing
newline the fence cut retains). -/
def innerPlan : Str :=
  str "\x7b\"command\": \"WriteFile\", \"path\": \"a.txt\"\x7d\n"

/-- A shell oracle for C10; the blocked branch must never consult it. -/
def shellNever : Str → ShellOut := fun _ => { output := [], exit_status := 0 }

/-! ## Theorems -/

/-- Helper for C5: once the found flag is on, the range scan collects items
up to and including the first occurrence of end_id. -/
theorem range_go_true_eq (a b : Int) :
    ∀ l : List TodoItem,
      TodoManager.range_go a b true l = take_through_first b l
  | [] => rfl
  | t :: rest => by
    unfold TodoManager.range_go take_through_first
    by_cases h : t.id = b
    · simp [h]
    · simp [h, range_go_true_eq a b rest]

/-- Helper for C5: with the found flag off, the range scan skips to the
first occurrence of start_id and collects from there. -/
theorem range_go_false_eq (a b : Int) :
    ∀ l : List TodoItem,
      TodoManager.range_go a b false l
        = take_through_first b (drop_before_first a l)
  | [] => rfl
  | t :: rest => by
    unfold TodoManager.range_go
    by_cases h : t.id = a
    · by_cases hb : t.id = b
      · have hab : a = b := h.symm.trans hb
        simp [drop_before_first, List.dropWhile, h, hb, hab,
          take_through_first]
      · have hab : a ≠ b := fun e => hb (h.trans e)
        simp [drop_before_first, List.dropWhile, h, hb, hab,
          take_through_first, range_go_true_eq a b rest]
    · have hne : (t.id != a) = true := by simp [bne_iff_ne, h]
      simp [drop_before_first, List.dropWhile, hne, h,
        range_go_false_eq a b rest]

/-- Helper: reduce an `if` whose Boolean condition is the literal true. -/
theorem if_true_lit {α : Sort _} (a b : α) :
    (if true = true then a else b) = a := if_pos rfl

/-- Helper: reduce an `if` whose Boolean condition is the literal false. -/
theorem if_false_lit {α : Sort _} (a b : α) :
    (if false = true then a else b) = b := if_neg (by simp)

/-- Helper for C1: the title branch of the item mutation preserves the id. -/
theorem upd_title_id (title : Option Str) (p : TodoItem × Bool) :
    ((TodoManager.upd_title title p).1).id = (p.1).id := by
  cases title with
  | none => rfl
  | some t =>
    show ((if t.isEmpty = false ∧ p.1.title ≠ t then ({ p.1 with title := t }, true)
           else p).1).id = (p.1).id
    split <;> rfl

/-- Helper for C1: the description branch preserves the id. -/
theorem upd_description_id (description : Option Str) (p : TodoItem × Bool) :
    ((TodoManager.upd_description description p).1).id = (p.1).id := by
  cases description with
  | none => rfl
  | some d =>
    show ((if p.1.description ≠ d then ({ p.1 with description := d }, true)
           else p).1).id = (p.1).id
    split <;> rfl

/-- Helper for C1: the status branch preserves the id. -/
theorem upd_status_id (status : Option TodoStatus) (p : TodoItem × Bool) :
    ((TodoManager.upd_status status p).1).id = (p.1).id := by
  cases status with
  | none => rfl
  | some s =>
    show ((if p.1.status ≠ s then ({ p.1 with status := s }, true)
           else p).1).id = (p.1).id
    split <;> rfl

/-- Helper for C1: the whole `update_todo` item mutation preserves the id. -/
theorem apply_update_id (title description : Option Str)
    (status : Option TodoStatus) (now : Nat) (it : TodoItem) :
    ((TodoManager.apply_update title description status now it).1).id
      = it.id := by
  have hq : ((TodoManager.upd_status status (TodoManager.upd_description
      description (TodoManager.upd_title title (it, false)))).1).id
        = it.id := by
    rw [upd_status_id, upd_description_id, upd_title_id]
  unfold TodoManager.apply_update
  rcases hm : TodoManager.upd_status status (TodoManager.upd_description
      description (TodoManager.upd_title title (it, false))) with ⟨it2, u⟩
  rw [hm] at hq
  cases u
  · simpa using hq
  · simpa using hq

/-- Helper for C1: a status-only update sets the item's status to the
requested value. -/
theorem apply_update_mark_status (s : TodoStatus) (now : Nat)
    (it : TodoItem) :
    ((TodoManager.apply_update none none (some s) now it).1).status = s := by
  unfold TodoManager.apply_update TodoManager.upd_status
    TodoManager.upd_description TodoManager.upd_title
  by_cases h : it.status = s
  · simp [h]
  · simp [h]

/-- Helper for C1: updating the first matching item keeps the id sequence
of the list. -/
theorem update_first_map_id (j : Int) (f : TodoItem → TodoItem × Bool)
    (hf : ∀ x, ((f x).1).id = x.id) :
    ∀ l : List TodoItem,
      ((TodoManager.update_first j f l).1).map (fun t => t.id)
        = l.map (fun t => t.id)
  | [] => rfl
  | x :: xs => by
    unfold TodoManager.update_first
    by_cases h : x.id = j
    · simp [h, hf x]
    · simp [h, update_first_map_id j f hf xs]

/-- Helper for C1: updating the item with id `j` leaves the lookup of any
other id unchanged. -/
theorem update_first_find_other (j i : Int) (f : TodoItem → TodoItem × Bool)
    (hf : ∀ x, ((f x).1).id = x.id) (hne : i ≠ j) :
    ∀ l : List TodoItem,
      ((TodoManager.update_first j f l).1).find? (fun t => t.id == i)
        = l.find? (fun t => t.id == i)
  | [] => rfl
  | x :: xs => by
    unfold TodoManager.update_first
    by_cases h : x.id = j
    · have h2 : (j == i) = false := by
        simp
        omega
      simp [h, List.find?, hf x, h2]
    · cases hxi : (x.id == i) with
      | true => simp [h, List.find?, hxi]
      | false =>
        simp [h, List.find?, hxi, update_first_find_other j i f hf hne xs]

/-- Helper for C1: the lookup of id `j` after updating it returns the
mutated first match. -/
theorem update_first_find_self (j : Int) (f : TodoItem → TodoItem × Bool)
    (hf : ∀ x, ((f x).1).id = x.id) :
    ∀ (l : List TodoItem) (x : TodoItem),
      l.find? (fun t => t.id == j) = some x →
      ((TodoManager.update_first j f l).1).find? (fun t => t.id == j)
        = some (f x).1
  | [], x, h => by simp [List.find?] at h
  | y :: ys, x, h => by
    unfold TodoManager.update_first
    by_cases hy : y.id = j
    · have hyt : (y.id == j) = true := by simp [hy]
      have hft : (((f y).1).id == j) = true := by simp [hf y, hy]
      simp [List.find?, hyt] at h
      subst h
      simp [hy, List.find?, hft]
    · have hyf : (y.id == j) = false := by simp [hy]
      simp [List.find?, hyf] at h
      simp [hy, List.find?, hyf, update_first_find_self j f hf ys x h]

/-- Helper for C1: an item id is present in a store iff the id lookup
succeeds. -/
theorem find_id_isSome_iff (l : List TodoItem) (i : Int) :
    ((l.find? (fun t => t.id == i)).isSome = true)
      ↔ i ∈ l.map (fun t => t.id) := by
  simp [List.find?_isSome, List.mem_map, beq_iff_eq]

/-- Helper for C1: a status-only `update_todo` on id `j` sets that item's
observable status when the id exists. -/
theorem mark_status_set (m : TodoManager) (j : Int) (now : Nat)
    (s : TodoStatus)
    (h : (m.todos.find? (fun t => t.id == j)).isSome = true) :
    TodoManager.status_of
        ((TodoManager.update_todo m j none none (some s) now).1) j
      = some s := by
  obtain ⟨x, hx⟩ := Option.isSome_iff_exists.mp h
  unfold TodoManager.status_of TodoManager.update_todo
  dsimp only
  rw [update_first_find_self j _
    (fun y => apply_update_id none none (some s) now y) m.todos x hx]
  simp [apply_update_mark_status]

/-- Helper for C1: a status-only `update_todo` on id `j` leaves every other
item's status unchanged. -/
theorem mark_status_other (m : TodoManager) (j i : Int) (now : Nat)
    (s : TodoStatus) (hne : i ≠ j) :
    TodoManager.status_of
        ((TodoManager.update_todo m j none none (some s) now).1) i
      = TodoManager.status_of m i := by
  unfold TodoManager.status_of TodoManager.update_todo
  dsimp only
  rw [update_first_find_other j i _
    (fun y => apply_update_id none none (some s) now y) hne m.todos]

/-- Helper for C1: a status-only `update_todo` preserves the id sequence. -/
theorem mark_ids (m : TodoManager) (j : Int) (now : Nat) (s : TodoStatus) :
    ((TodoManager.update_todo m j none none (some s) now).1).todos.map
        (fun t => t.id)
      = m.todos.map (fun t => t.id) := by
  unfold TodoManager.update_todo
  dsimp only
  exact update_first_map_id j _
    (fun y => apply_update_id none none (some s) now y) m.todos

/-- Helper for C1: the execution loop never changes the id sequence of the
store. -/
theorem exec_loop_ids (exec : TodoItem → Bool) (now : Nat) :
    ∀ (p : List TodoItem) (m : TodoManager),
      ((Coordinator.exec_loop exec now p m).todos).map (fun t => t.id)
        = m.todos.map (fun t => t.id)
  | [], _ => rfl
  | t :: rest, m => by
    unfold Coordinator.exec_loop
    rw [exec_loop_ids exec now rest]
    cases he : exec t with
    | false =>
      rw [if_false_lit]
      unfold TodoManager.mark_in_progress
      exact mark_ids m t.id now _
    | true =>
      rw [if_true_lit]
      unfold TodoManager.mark_completed TodoManager.mark_in_progress
      rw [mark_ids, mark_ids]

/-- Helper for C1: items whose id is not scheduled keep their status
through the execution loop. -/
theorem exec_loop_status_other (exec : TodoItem → Bool) (now : Nat)
    (i : Int) :
    ∀ (p : List TodoItem) (m : TodoManager),
      i ∉ p.map (fun t => t.id) →
      TodoManager.status_of (Coordinator.exec_loop exec now p m) i
        = TodoManager.status_of m i
  | [], _, _ => rfl
  | t :: rest, m, h => by
    simp only [List.map_cons, List.mem_cons, not_or] at h
    obtain ⟨h1, h2⟩ := h
    unfold Coordinator.exec_loop
    rw [exec_loop_status_other exec now i rest _ h2]
    cases he : exec t with
    | false =>
      rw [if_false_lit]
      unfold TodoManager.mark_in_progress
      exact mark_status_other m t.id i now _ h1
    | true =>
      rw [if_true_lit]
      unfold TodoManager.mark_completed TodoManager.mark_in_progress
      rw [mark_status_other _ _ _ _ _ h1, mark_status_other _ _ _ _ _ h1]

/-- Helper for C1: each scheduled item ends the loop completed when its
execution succeeded and in-progress when it failed, provided the
scheduled ids are distinct and present in the store. -/
theorem exec_loop_status_mem (exec : TodoItem → Bool) (now : Nat) :
    ∀ (p : List TodoItem) (m : TodoManager) (t : TodoItem),
      (p.map (fun x => x.id)).Nodup → t ∈ p →
      t.id ∈ m.todos.map (fun x => x.id) →
      TodoManager.status_of (Coordinator.exec_loop exec now p m) t.id
        = some (if exec t then TodoStatus.COMPLETED
                else TodoStatus.IN_PROGRESS)
  | [], _, t, _, ht, _ => absurd ht (List.not_mem_nil t)
  | x :: rest, m, t, hnd, ht, hidm => by
    rw [List.map_cons] at hnd
    obtain ⟨hx_notin, hnd_rest⟩ := List.nodup_cons.mp hnd
    have hids1 : ((TodoManager.mark_in_progress m x.id now).todos).map
        (fun y => y.id) = m.todos.map (fun y => y.id) := by
      unfold TodoManager.mark_in_progress
      exact mark_ids m x.id now _
    unfold Coordinator.exec_loop
    rcases List.mem_cons.mp ht with rfl | htr
    · have hm1 : TodoManager.status_of
          (TodoManager.mark_in_progress m t.id now) t.id
            = some TodoStatus.IN_PROGRESS := by
        unfold TodoManager.mark_in_progress
        exact mark_status_set m t.id now _ ((find_id_isSome_iff _ _).mpr hidm)
      rw [exec_loop_status_other exec now t.id rest _ hx_notin]
      cases he : exec t with
      | false =>
        rw [if_false_lit, if_false_lit]
        exact hm1
      | true =>
        rw [if_true_lit, if_true_lit]
        unfold TodoManager.mark_completed
        apply mark_status_set
        exact (find_id_isSome_iff _ _).mpr (hids1 ▸ hidm)
    · have hids2 : t.id ∈
          ((if exec x = true then
              TodoManager.mark_completed
                (TodoManager.mark_in_progress m x.id now) x.id now
            else TodoManager.mark_in_progress m x.id now)).todos.map
            (fun y => y.id) := by
        cases he : exec x with
        | false =>
          rw [if_false_lit]
          rw [hids1]
          exact hidm
        | true =>
          rw [if_true_lit]
          unfold TodoManager.mark_completed
          rw [mark_ids, hids1]
          exact hidm
      exact exec_loop_status_mem exec now rest _ t hnd_rest htr hids2

/-- C1 counterexample: with two pending items where item 1's execution
fails and item 2's succeeds, `Coordinator::execute_todos` leaves item 1
in-progress and still executes item 2 to completion: the batch does not
stop at the failed item, and the remaining item does not keep its pending
status. -/
theorem c1_counterexample :
    execFail1 (mkPending 1 1) = false
      ∧ TodoManager.status_of
          (Coordinator.execute_todos execFail1 7 store12) 1
          = some TodoStatus.IN_PROGRESS
      ∧ TodoManager.status_of
          (Coordinator.execute_todos execFail1 7 store12) 2
          = some TodoStatus.COMPLETED := by
  decide

/-- C1 (amended): in `Coordinator::execute_todos` every pending item is
processed regardless of earlier failures — an item whose execution
succeeds is marked completed, an item whose execution fails is left
in-progress, and later items are still executed; the batch does not stop
at a failing item (unlike `execute_todos_until` / `execute_todos_range`,
batch execution has no break on failure). -/
theorem c1_batch_continues (exec : TodoItem → Bool) (now : Nat)
    (m : TodoManager) (t : TodoItem)
    (hnd : ((TodoManager.get_pending_todos m).map (fun x => x.id)).Nodup)
    (ht : t ∈ TodoManager.get_pending_todos m) :
    TodoManager.status_of (Coordinator.execute_todos exec now m) t.id
      = some (if exec t then TodoStatus.COMPLETED
              else TodoStatus.IN_PROGRESS) := by
  unfold Coordinator.execute_todos
  apply exec_loop_status_mem exec now _ m t hnd ht
  exact List.mem_map_of_mem _ (List.mem_of_mem_filter ht)

/-- C1 witness: in the two-item store with a failing first item, the
second item is pending beforehand and ends completed. -/
theorem c1_witness :
    ((TodoManager.get_pending_todos store12).map (fun x => x.id)).Nodup
      ∧ mkPending 2 2 ∈ TodoManager.get_pending_todos store12
      ∧ TodoManager.status_of
          (Coordinator.execute_todos execFail1 7 store12) (mkPending 2 2).id
          = some (if execFail1 (mkPending 2 2) then TodoStatus.COMPLETED
                  else TodoStatus.IN_PROGRESS) :=
  ⟨by decide, by decide,
   c1_batch_continues execFail1 7 store12 (mkPending 2 2) (by decide)
     (by decide)⟩

/-- C2 counterexample: the path `src/../src/a.txt` contains `..`, yet under
the default policy `PolicyChecker::is_allowed(file_tool, READ, ·)` accepts
it — the cwd check resolves the `..` back inside the working directory and
the directory-prefix check runs on the raw text, which starts with `src/`.
This refutes the claim that every path containing `..` is rejected. -/
theorem c2_counterexample :
    containsSub dotdot_inside (str "..") = true
      ∧ PolicyChecker.is_allowed canonNone cwd0 PolicySettings.defaults
          (str "file_tool") Operation.READ dotdot_inside = true := by
  decide

/-- C2 (amended): a path containing `..` is denied whenever its resolved
real path does not lie under the process working directory; only a `..`
path that resolves back inside the cwd can still be allowed. -/
theorem c2_escape_denied (canon : Str → Option Str) (cwd : Str)
    (S : PolicySettings) (tool : Str) (op : Operation) (p : Str)
    (_hdd : containsSub p (str "..") = true)
    (hout : PolicyChecker.is_within_cwd canon cwd p = false) :
    PolicyChecker.is_allowed canon cwd S tool op p = false := by
  unfold PolicyChecker.is_allowed
  simp [hout]

/-- C2 witness: `../etc/passwd` escapes the working directory and is
denied under the default policy. -/
theorem c2_witness :
    containsSub dotdot_escape (str "..") = true
      ∧ PolicyChecker.is_within_cwd canonNone cwd0 dotdot_escape = false
      ∧ PolicyChecker.is_allowed canonNone cwd0 PolicySettings.defaults
          (str "file_tool") Operation.READ dotdot_escape = false :=
  ⟨by decide, by decide,
   c2_escape_denied canonNone cwd0 PolicySettings.defaults (str "file_tool")
     Operation.READ dotdot_escape (by decide) (by decide)⟩

/-- C3 counterexample: with an existing but malformed policy file,
`PolicyConfig::load_or_create` terminates the process with exit status 1,
not the claimed status 2. -/
theorem c3_counterexample :
    PolicyConfig.load_or_create fsMalformed = LoadOutcome.exits 1
      ∧ PolicyConfig.load_or_create fsMalformed ≠ LoadOutcome.exits 2 := by
  decide

/-- C3 (amended): when the policy file exists but fails JSON parsing,
schema checking or validation, policy loading is fatal with exit status 1
(exit status 2 is reserved for failure to create the default
configuration). -/
theorem c3_parse_failure_fatal (fs : PolicyFs)
    (hex : fs.policy_file_exists = true) (hpr : fs.parse_result = none) :
    PolicyConfig.load_or_create fs = LoadOutcome.exits 1 := by
  unfold PolicyConfig.load_or_create
  simp [hex, hpr]

/-- C3 witness: the malformed-file scenario exits with status 1. -/
theorem c3_witness :
    fsMalformed.policy_file_exists = true ∧ fsMalformed.parse_result = none
      ∧ PolicyConfig.load_or_create fsMalformed = LoadOutcome.exits 1 :=
  ⟨rfl, rfl, c3_parse_failure_fatal fsMalformed rfl rfl⟩

/-- C4 counterexample: for the command `ls<TAB>-la` under a bash_tool policy
allowing exactly `ls`, the claim's reading (first whitespace-delimited
token, here `ls`, is in the allowed list) says the command is allowed, but
`PolicyChecker::is_bash_command_allowed` refuses it: the source splits
only on the space character, so the base command is the whole string. -/
theorem c4_counterexample :
    (bashOnlyLs.tools.lookup (str "bash_tool")).isSome = true
      ∧ PolicyChecker.is_bash_command_allowed bashOnlyLs tabLs = false
      ∧ spec_command_allowed bashOnlyLs tabLs = true := by
  decide

/-- C4 (amended): command evaluation blocks on any blocked-commands
substring; otherwise the base command is the prefix of the command string
up to the first space character (the whole command when it contains no
space), and the command is allowed iff allowed-commands is empty or
contains that base command. -/
theorem c4_base_is_space_token (S : PolicySettings) (c : Str) :
    PolicyChecker.is_bash_command_allowed S c = amended_command_allowed S c := by
  unfold PolicyChecker.is_bash_command_allowed amended_command_allowed
    PolicyChecker.is_bash_command_blocked
  cases h : S.tools.lookup (str "bash_tool") with
  | none => simp
  | some bt =>
    by_cases hb : bt.create.blocked_commands.any (fun b => containsSub c b)
      <;> simp [hb]

/-- C5 counterexample: with pending items 1, 2, 3 the selector
`get_todos_range(3, 1)` has start_id greater than end_id yet returns a
non-empty list (the suffix starting at item 3), refuting the claim that
such a call returns the empty list. -/
theorem c5_counterexample :
    (3 : Int) > 1 ∧ TodoManager.get_todos_range store123 3 1 ≠ [] := by
  decide

/-- C5 (amended): `get_todos_range(start, end)` returns the pending queue
from the first occurrence of start_id through the first following
occurrence of end_id inclusive; it is empty when start_id never occurs,
and when end_id does not occur at or after start_id (in particular when
start_id > end_id) it runs to the end of the pending queue instead of
being empty. -/
theorem c5_range_semantics (m : TodoManager) (a b : Int) :
    TodoManager.get_todos_range m a b
      = take_through_first b
          (drop_before_first a (TodoManager.get_execution_queue m)) := by
  unfold TodoManager.get_todos_range
  exact range_go_false_eq a b (TodoManager.get_execution_queue m)

/-- C6 counterexample: a valid plan inside a bare (untagged) fence is left
untouched by the Gemini adapter's cleanup — the fence is not stripped —
and the resulting text cannot begin a JSON document, while the same plan
with a json tag is stripped to the inner document. This refutes the claim
that both fence forms are stripped and parse successfully. -/
theorem c6_counterexample :
    GeminiProvider.strip_code_fence bareFenced = bareFenced
      ∧ bareFenced ≠ innerPlan
      ∧ GeminiProvider.json_lead_ok bareFenced = false
      ∧ GeminiProvider.json_lead_ok innerPlan = true := by
  decide

/-- C6 (amended): the Gemini adapter strips a leading code fence only when
it carries the json language tag; any text with no three-backtick-json
marker — a bare fence included — is passed to the JSON parser unchanged,
so only the tagged form of a fenced plan parses. -/
theorem c6_fence_requires_json_tag :
    (∀ c : Str, findSub c (str "```json") = none →
        GeminiProvider.strip_code_fence c = c)
      ∧ GeminiProvider.strip_code_fence taggedFenced = innerPlan := by
  refine ⟨?_, by decide⟩
  intro c h
  unfold GeminiProvider.strip_code_fence
  simp [h]

/-- C6 witness: the bare-fenced plan satisfies the no-tag hypothesis and is
returned unchanged. -/
theorem c6_witness :
    findSub bareFenced (str "```json") = none
      ∧ GeminiProvider.strip_code_fence bareFenced = bareFenced :=
  ⟨by decide, c6_fence_requires_json_tag.1 bareFenced (by decide)⟩

/-- C7 counterexample: the input line `yes` is neither `y`, `Y`, `a` nor
`A`, so the claim says it cancels, but `Coordinator::get_user_confirmation`
confirms it — only the first character is inspected. -/
theorem c7_counterexample :
    (Coordinator.get_user_confirmation false (str "yes")).1 = true
      ∧ str "yes" ≠ str "y" ∧ str "yes" ≠ str "Y"
      ∧ str "yes" ≠ str "a" ∧ str "yes" ≠ str "A" := by
  decide

/-- C7 (amended): the confirmation decision is taken on the first character
of the input line: `a`/`A` sets the always-approve flag and confirms,
`y`/`Y` confirms once, and any other first character — or an empty line —
cancels. -/
theorem c7_first_char_decides (always : Bool) (input : Str) :
    Coordinator.get_user_confirmation always input
      = spec_confirmation always input := by
  cases input with
  | nil => rfl
  | cons c rest =>
    unfold Coordinator.get_user_confirmation spec_confirmation
    by_cases ha : c = 'a' ∨ c = 'A'
    · simp [ha]
    · by_cases hy : c = 'y' ∨ c = 'Y' <;> simp [ha, hy]

/-- C8: deserialising the serialisation of any write-file command returns
exactly the original command — all four fields (command, path, content,
request_execution) survive the round trip. -/
theorem c8_roundtrip (c : WriteFileCommand) :
    MessageHandler.deserialize_command (MessageHandler.serialize_command c)
      = some c := by
  rfl

/-- C9: the Coordinator's pre-apply policy check on a write-file plan
evaluates the file_tool READ sub-policy: a path is approved iff it passes
the cwd check, the extension check and the allowed-directories list of
file_tool.read; in particular, under a policy whose file_tool may read
under `src/` but create nowhere, `src/a.txt` is still approved for
writing. -/
theorem c9_read_subpolicy :
    (∀ (canon : Str → Option Str) (cwd : Str) (S : PolicySettings) (p : Str),
        Coordinator.plan_policy_check canon cwd S p
          = spec_read_approval canon cwd S p)
      ∧ Coordinator.plan_policy_check canonNone cwd0 readNotCreate
          (str "src/a.txt") = true
      ∧ PolicySettings.is_operation_allowed readNotCreate (str "file_tool")
          Operation.CREATE (str "src/a.txt") = false := by
  refine ⟨?_, by decide, by decide⟩
  intro canon cwd S p
  unfold Coordinator.plan_policy_check PolicyChecker.is_allowed_legacy
    PolicyChecker.is_allowed spec_read_approval
    PolicySettings.is_operation_allowed PolicySettings.get_operation_policy
  by_cases hw : PolicyChecker.is_within_cwd canon cwd p
  · by_cases he : PolicyChecker.is_extension_blocked S p
    · simp [hw, he]
    · cases hl : S.tools.lookup (str "file_tool") with
      | none => simp [hw, he, hl]
      | some tp =>
        by_cases hemp : tp.read.allowed_directories.isEmpty
          <;> simp [hw, he, hl, hemp]
  · simp [hw]

/-- C10: every command refused by the BashTool's built-in safety net gets a
fully determined blocked result — success false, exit code -1, the
`Command blocked by security policy` message, empty stdout/stderr — and
the right-hand side does not involve the shell oracle, so no shell
process is invoked and the working directory is untouched. -/
theorem c10_blocked_no_shell (dangerous : Str → Bool)
    (shell : Str → ShellOut) (proc_cwd command working_directory : Str)
    (h : BashTool.is_command_allowed dangerous command = false) :
    BashTool.execute_command dangerous shell proc_cwd command
        working_directory
      = { command := command, exit_code := -1, stdout_output := [],
          stderr_output := [], working_directory := [],
          pwd_after_execution := [], success := false,
          error_message :=
            str "Command blocked by security policy: " ++ command } := by
  unfold BashTool.execute_command
  simp [h]

/-- C10 witness: `rm -rf /` is refused by the built-in blocked-commands
list (independently of the dangerous-pattern engine) and yields the
blocked result. -/
theorem c10_witness :
    BashTool.is_command_allowed (fun _ => false) (str "rm -rf /") = false
      ∧ BashTool.execute_command (fun _ => false) shellNever cwd0
          (str "rm -rf /") []
        = { command := str "rm -rf /", exit_code := -1, stdout_output := [],
            stderr_output := [], working_directory := [],
            pwd_after_execution := [], success := false,
            error_message :=
              str "Command blocked by security policy: " ++ str "rm -rf /" } :=
  ⟨by decide,
   c10_blocked_no_shell (fun _ => false) shellNever cwd0 (str "rm -rf /") []
     (by decide)⟩

end MAG
